import Mathlib

/-
Verification development for the base-ui-rn repository: a shallow embedding of
the prop-reconciliation engine (mergeProps / mergeHandlers / mergeRefs / Slot)
and of the activation state machines of the Toggle and Button primitives,
together with proofs of the specified properties.
-/

namespace BaseUiRn

/-- Model of a JavaScript runtime value as it occurs in a React Native prop
bag.  Reference types (functions, plain objects, arrays) carry a numeric
identity so that strict equality (`===`) can be modelled faithfully;
primitive values compare by value.  (`NaN` is not representable in the `Int`
model of numbers; no code under verification manipulates `NaN`.) -/
inductive JSVal where
  | undef
  | null
  | bool (b : Bool)
  | num (n : Int)
  | str (s : String)
  | fn (id : Nat)
  | obj (id : Nat) (fields : List (String × JSVal))
  | arr (id : Nat) (elems : List JSVal)

/-- A JavaScript property bag: ordered string-keyed fields (insertion order),
as produced by object literals.  Well-formed bags have pairwise distinct keys. -/
abbrev Bag := List (String × JSVal)

/-- Association-list lookup (first occurrence), the read semantics of
`record[key]` restricted to own properties. -/
def alGet {α : Type} : List (String × α) → String → Option α
  | [], _ => none
  | (k1, v1) :: rest, k => if k1 = k then some v1 else alGet rest k

/-- Reading `record[key]` yields `undefined` when the key is absent. -/
def bagGet (b : Bag) (k : String) : JSVal :=
  (alGet b k).getD JSVal.undef

/-- Writing `record[key] = v`: an existing key keeps its position and gets the
new value, a new key is appended — JavaScript property-order semantics. -/
def bagSet : Bag → String → JSVal → Bag
  | [], k, v => [(k, v)]
  | (k1, v1) :: rest, k, v =>
      if k1 = k then (k1, v) :: rest else (k1, v1) :: bagSet rest k v

/-- Strict equality `===` between JavaScript values: primitives by value,
reference types by identity. -/
def jsEq : JSVal → JSVal → Bool
  | .undef, .undef => true
  | .null, .null => true
  | .bool a, .bool b => a == b
  | .num a, .num b => a == b
  | .str a, .str b => a == b
  | .fn a, .fn b => a == b
  | .obj a _, .obj b _ => a == b
  | .arr a _, .arr b _ => a == b
  | _, _ => false

/-- Truthiness of a JavaScript value (the `!v` test negated). -/
def jsTruthy : JSVal → Bool
  | .undef => false
  | .null => false
  | .bool b => b
  | .num n => n != 0
  | .str s => s ≠ ""
  | .fn _ => true
  | .obj _ _ => true
  | .arr _ _ => true

/-- Test for `v && typeof v === 'object'`: a non-null object or array. -/
def isObjectLike : JSVal → Bool
  | .obj _ _ => true
  | .arr _ _ => true
  | _ => false

/-- Test for `typeof v === 'function'`. -/
def isFn : JSVal → Bool
  | .fn _ => true
  | _ => false

/-- Values a `WeakMap` accepts as keys (objects, arrays and functions);
`WeakMap.set` throws a `TypeError` on any other value. -/
def weakKeyable : JSVal → Bool
  | .fn _ => true
  | .obj _ _ => true
  | .arr _ _ => true
  | _ => false

/-- Identity of a reference-typed value (meaningful when `weakKeyable`). -/
def jsIdOf : JSVal → Nat
  | .fn i => i
  | .obj i _ => i
  | .arr i _ => i
  | _ => 0

/-- Test for `key.startsWith('on')`, written over the character list so that
it evaluates inside the kernel. -/
def keyStartsOn (k : String) : Bool :=
  match k.data with
  | c1 :: c2 :: _ => c1 == 'o' && c2 == 'n'
  | _ => false

/-- Own enumerable string-keyed fields, as iterated by `for key in record`:
the fields of an object, the indexed elements of an array. -/
def fieldsOf : JSVal → List (String × JSVal)
  | .obj _ fs => fs
  | .arr _ es => es.enum.map (fun p => (toString p.1, p.2))
  | _ => []

/-- Spread-merge `{...base, ...fields}`: base fields first (overridden in
place), new fields appended in order. -/
def objSpread (base fields : List (String × JSVal)) : List (String × JSVal) :=
  fields.foldl (fun acc kv => bagSet acc kv.1 kv.2) base

/-- Runtime errors the embedded code can raise. -/
inductive JsErr where
  | typeError
deriving DecidableEq

/-
merge-handlers (package slot; src/unnamed/part_008 and part_010).

  const handlerCache = new WeakMap<object, WeakMap<object, Handler>>();
  export function mergeHandlers(primitive?, consumer?) {
    if (!primitive) return consumer;
    if (!consumer) return primitive;
    let consumerCache = handlerCache.get(primitive);
    if (!consumerCache) { consumerCache = new WeakMap(); handlerCache.set(primitive, consumerCache); }
    let merged = consumerCache.get(consumer);
    if (!merged) { merged = function mergedHandler(event) {...}; consumerCache.set(consumer, merged); }
    return merged;
  }

The two-level cache is modelled as an association table from primitive
identity to an inner table from consumer identity to the merged function's
identity.  `nextId` allocates identities for freshly created functions and
objects.
-/

/-- State of the module-level handler cache plus a fresh-identity allocator
for newly created reference values. -/
structure HCache where
  table : List (Nat × List (Nat × Nat))
  nextId : Nat
deriving DecidableEq

/-- Empty cache with identity allocation starting above the given bound. -/
def emptyCache : HCache := ⟨[], 1000⟩

/-- Association-list lookup over numeric keys. -/
def nlGet {α : Type} : List (Nat × α) → Nat → Option α
  | [], _ => none
  | (k1, v1) :: rest, k => if k1 = k then some v1 else nlGet rest k

/-- Association-list update over numeric keys (replace first occurrence in
place, else append), the `Map.set` semantics relevant for lookups. -/
def nlSet {α : Type} : List (Nat × α) → Nat → α → List (Nat × α)
  | [], k, v => [(k, v)]
  | (k1, v1) :: rest, k, v =>
      if k1 = k then (k1, v) :: rest else (k1, v1) :: nlSet rest k v

/-- Core of the cached composition for a `(primitive, consumer)` pair of
function identities: a cache hit returns the stored merged identity and
leaves the cache unchanged; a miss creates a fresh merged function, stores it
under the pair, and bumps the allocator. -/
def composePair (p c : Nat) (σ : HCache) : Nat × HCache :=
  let inner := (nlGet σ.table p).getD []
  match nlGet inner c with
  | some m => (m, σ)
  | none => (σ.nextId, ⟨nlSet σ.table p (nlSet inner c σ.nextId), σ.nextId + 1⟩)

/-- Embedding of `mergeHandlers` (slot variant): a falsy argument returns the
other argument unchanged; two truthy arguments go through the two-level weak
cache.  `WeakMap.set` with a truthy non-reference key throws a `TypeError`. -/
def mergeHandlers (primitive consumer : JSVal) (σ : HCache) :
    Except JsErr (JSVal × HCache) :=
  if !(jsTruthy primitive) then .ok (consumer, σ)
  else if !(jsTruthy consumer) then .ok (primitive, σ)
  else if !(weakKeyable primitive) then .error .typeError
  else if !(weakKeyable consumer) then .error .typeError
  else
    let r := composePair (jsIdOf primitive) (jsIdOf consumer) σ
    .ok (.fn r.1, r.2)

/-
Execution semantics of the composed handler bodies.

Slot variant (part_008 lines 51-57, identical in part_010 lines 20-26):
  merged = function mergedHandler(event) {
    primitive(e);
    if (!e?.defaultPrevented) { consumer(e); }
  };

Alternative variant (part_009 lines 39-42):
  merged = function mergedHandler(event) {
    consumer(event);
    primitive(event);
  };

An event is a mutable object: its identity (`eid`) is fixed for its lifetime,
and a handler may mutate its `defaultPrevented` flag.  A handler behaviour is
therefore a function from the event to the new flag value.  Runs record an
invocation trace: which handler was called, and the state of the event object
at the moment of the call.
-/

/-- Mutable event object: fixed identity plus the `defaultPrevented` flag. -/
structure Ev where
  eid : Nat
  prevented : Bool
deriving DecidableEq

/-- Tag naming which of the two underlying handlers was invoked. -/
inductive HTag where
  | prim
  | cons
deriving DecidableEq

/-- Invoking a handler on the (mutable) event: the identity is preserved, the
flag is whatever the handler leaves behind. -/
def runHandler (h : Ev → Bool) (e : Ev) : Ev :=
  ⟨e.eid, h e⟩

/-- Run of the slot-variant composed handler: the primitive handler first,
then — only if the event does not indicate prevented default — the consumer
handler; the second component is the invocation trace. -/
def runMergedSlot (p c : Ev → Bool) (e : Ev) : Ev × List (HTag × Ev) :=
  let e1 := runHandler p e
  if e1.prevented then (e1, [(HTag.prim, e)])
  else (runHandler c e1, [(HTag.prim, e), (HTag.cons, e1)])

/-- Run of the part_009-variant composed handler: the consumer handler first,
then the primitive handler, unconditionally. -/
def runMergedAlt (p c : Ev → Bool) (e : Ev) : Ev × List (HTag × Ev) :=
  let e1 := runHandler c e
  (runHandler p e1, [(HTag.cons, e), (HTag.prim, e1)])

/-
merge-props (src/packages/slot/src/merge-props.ts).
-/

/-- The CRITICAL key set of src/packages/slot/src/merge-props.ts lines 3-20. -/
def CRITICAL : List String :=
  ["accessibilityRole", "accessibilityHint", "accessibilityElementsHidden",
   "accessibilityLiveRegion", "importantForAccessibility", "focusable",
   "role", "tabIndex", "aria-expanded", "aria-selected", "aria-checked",
   "aria-disabled", "aria-hidden", "aria-controls", "aria-labelledby",
   "aria-describedby"]

/-- Outcome of `mergeObjectsShallow`, distinguishing which reference is
returned: the child object unchanged, the injected object unchanged, or a
freshly allocated merged object with the given fields. -/
inductive ShallowRes where
  | keepChild
  | keepInjected
  | fresh (fields : List (String × JSVal))

/-- Embedding of `mergeObjectsShallow` (merge-props.ts lines 25-43): a
non-object argument returns the other reference; otherwise the injected
fields are scanned for a strict-inequality change against the child fields,
and only when one exists is a fresh `{...child, ...injected}` allocated. -/
def mergeObjectsShallow (childObj injectedObj : JSVal) : ShallowRes :=
  if !(isObjectLike childObj) then .keepInjected
  else if !(isObjectLike injectedObj) then .keepChild
  else if (fieldsOf injectedObj).any
      (fun kv => !(jsEq (bagGet (fieldsOf childObj) kv.1) kv.2)) then
    .fresh (objSpread (fieldsOf childObj) (fieldsOf injectedObj))
  else .keepChild

/-- State of the `mergeProps` loop: the current result content, whether the
result has been cloned (`cloned = false` means the result is still the child
bag object itself, by reference), and the handler-cache/allocator state. -/
structure MergeSt where
  bag : Bag
  cloned : Bool
  σ : HCache

/-- One iteration of the `for key in injected` loop of `mergeProps`
(merge-props.ts lines 52-120), for key `k` with injected value `iv`.  Reads
the child value from the original child bag, exactly as the source does. -/
def mpStep (child : Bag) (st : MergeSt) (k : String) (iv : JSVal) :
    Except JsErr MergeSt :=
  let cv := bagGet child k
  if jsEq iv .undef then .ok st
  else if k = "accessibilityState" ∨ k = "accessibilityValue" then
    match mergeObjectsShallow cv iv with
    | .keepChild => .ok st
    | .keepInjected =>
        if jsEq iv cv then .ok st
        else .ok ⟨bagSet st.bag k iv, true, st.σ⟩
    | .fresh fs =>
        .ok ⟨bagSet st.bag k (.obj st.σ.nextId fs), true,
             ⟨st.σ.table, st.σ.nextId + 1⟩⟩
  else if k ∈ CRITICAL then
    if jsEq cv iv then .ok st
    else .ok ⟨bagSet st.bag k iv, true, st.σ⟩
  else if keyStartsOn k && isFn iv then
    match mergeHandlers iv cv st.σ with
    | .error e => .error e
    | .ok (m, σ2) =>
        if jsEq m cv then .ok ⟨st.bag, st.cloned, σ2⟩
        else .ok ⟨bagSet st.bag k m, true, σ2⟩
  else if k = "style" then
    if !(jsTruthy cv) then .ok ⟨bagSet st.bag k iv, true, st.σ⟩
    else match cv with
      | .arr _ es =>
          .ok ⟨bagSet st.bag k (.arr st.σ.nextId (iv :: es)), true,
               ⟨st.σ.table, st.σ.nextId + 1⟩⟩
      | _ =>
          .ok ⟨bagSet st.bag k (.arr st.σ.nextId [iv, cv]), true,
               ⟨st.σ.table, st.σ.nextId + 1⟩⟩
  else
    if jsEq cv .undef && !(jsEq iv .undef) then
      .ok ⟨bagSet st.bag k iv, true, st.σ⟩
    else .ok st

/-- The `for key in injected` loop, folding `mpStep` over the injected
entries in order. -/
def mergePropsGo (child : Bag) : List (String × JSVal) → MergeSt →
    Except JsErr MergeSt
  | [], st => .ok st
  | (k, iv) :: rest, st =>
      match mpStep child st k iv with
      | .error e => .error e
      | .ok st2 => mergePropsGo child rest st2

/-- Embedding of `mergeProps(injected, child)` (merge-props.ts lines 45-123).
The loop starts with the result aliasing the child bag (`cloned = false`);
any write first clones.  The returned `MergeSt` records the result content,
whether a new object was allocated, and the final cache state. -/
def mergeProps (injected child : Bag) (σ : HCache) : Except JsErr MergeSt :=
  mergePropsGo child injected ⟨child, false, σ⟩

/-- Decision procedure, read off the branches of `mpStep`, for whether the
injected entry `(k, iv)` writes into the result (i.e. changes the outcome
versus the child bag alone).  Handler keys with a function injected always
write (the merged handler is a distinct function object), as does `style`. -/
def stepWrites (child : Bag) (k : String) (iv : JSVal) : Bool :=
  let cv := bagGet child k
  if jsEq iv .undef then false
  else if k = "accessibilityState" ∨ k = "accessibilityValue" then
    match mergeObjectsShallow cv iv with
    | .keepChild => false
    | .keepInjected => !(jsEq iv cv)
    | .fresh _ => true
  else if k ∈ CRITICAL then !(jsEq cv iv)
  else if keyStartsOn k && isFn iv then true
  else if k = "style" then true
  else if jsEq cv .undef then true
  else false

/-
merge-props variant of src/unnamed/part_011.  Its CRITICAL set additionally
contains `accessible` and the responder-system handler keys; its `mergeProps`
starts from `const result = {...child}` — an unconditional fresh allocation —
and resolves every key with the injected value winning:

  const result = {...child};
  for (const key in injected) {
    if (injectedValue === undefined) continue;
    if (key === 'accessibilityState' || key === 'accessibilityValue')
      { result[key] = mergeObjectsShallow(childValue, injectedValue); continue; }
    if (typeof injectedValue === 'function' && (key.startsWith('on') || CRITICAL.has(key)))
      { result[key] = mergeHandlers(injectedValue, childValue-if-function); continue; }
    if (key === 'style') { result[key] = ...; continue; }
    result[key] = injectedValue;
  }
-/

/-- The CRITICAL key set of part_011 lines 7-32. -/
def CRITICAL011 : List String :=
  ["accessible", "accessibilityRole", "accessibilityHint",
   "accessibilityElementsHidden", "accessibilityLiveRegion",
   "importantForAccessibility", "focusable", "role", "tabIndex",
   "aria-expanded", "aria-selected", "aria-checked", "aria-disabled",
   "aria-hidden", "aria-controls", "aria-labelledby", "aria-describedby",
   "onStartShouldSetResponder", "onMoveShouldSetResponder",
   "onResponderGrant", "onResponderMove", "onResponderRelease",
   "onResponderTerminate", "onResponderTerminationRequest"]

/-- One iteration of part_011's merge loop (lines 90-124). -/
def mp011Step (child : Bag) (st : MergeSt) (k : String) (iv : JSVal) :
    Except JsErr MergeSt :=
  let cv := bagGet child k
  if jsEq iv .undef then .ok st
  else if k = "accessibilityState" ∨ k = "accessibilityValue" then
    match mergeObjectsShallow cv iv with
    | .keepChild => .ok ⟨bagSet st.bag k cv, st.cloned, st.σ⟩
    | .keepInjected => .ok ⟨bagSet st.bag k iv, st.cloned, st.σ⟩
    | .fresh fs =>
        .ok ⟨bagSet st.bag k (.obj st.σ.nextId fs), st.cloned,
             ⟨st.σ.table, st.σ.nextId + 1⟩⟩
  else if isFn iv && (keyStartsOn k || k ∈ CRITICAL011) then
    match mergeHandlers iv (if isFn cv then cv else .undef) st.σ with
    | .error e => .error e
    | .ok (m, σ2) => .ok ⟨bagSet st.bag k m, st.cloned, σ2⟩
  else if k = "style" then
    if !(jsTruthy cv) then .ok ⟨bagSet st.bag k iv, st.cloned, st.σ⟩
    else match cv with
      | .arr _ es =>
          .ok ⟨bagSet st.bag k (.arr st.σ.nextId (iv :: es)), st.cloned,
               ⟨st.σ.table, st.σ.nextId + 1⟩⟩
      | _ =>
          .ok ⟨bagSet st.bag k (.arr st.σ.nextId [iv, cv]), st.cloned,
               ⟨st.σ.table, st.σ.nextId + 1⟩⟩
  else .ok ⟨bagSet st.bag k iv, st.cloned, st.σ⟩

/-- Loop of part_011's merge. -/
def mergeProps011Go (child : Bag) : List (String × JSVal) → MergeSt →
    Except JsErr MergeSt
  | [], st => .ok st
  | (k, iv) :: rest, st =>
      match mp011Step child st k iv with
      | .error e => .error e
      | .ok st2 => mergeProps011Go child rest st2

/-- Embedding of part_011's `mergeProps` (lines 84-127).  The initial state
already has `cloned = true`: the source allocates `const result = {...child}`
unconditionally, so the returned bag is never the child object itself. -/
def mergeProps011 (injected child : Bag) (σ : HCache) : Except JsErr MergeSt :=
  mergeProps011Go child injected ⟨child, true, σ⟩

/-
merge-refs (slot package; src/unnamed/part_010 second section, lines 51-63).

  export function mergeRefs<T>(...refs) {
    return (value) => {
      for (const ref of refs) {
        if (!ref) continue;
        if (typeof ref === 'function') ref(value); else ref.current = value;
      }
    };
  }

A ref slot is modelled by its identity; invoking the merged callback with a
value produces the ordered list of assignments (slot identity, value), with
null/absent slots skipped.
-/

/-- Fan-out of one value to a list of optional ref slots, in order. -/
def mergeRefsRun (refs : List (Option Nat)) (value : Option Nat) :
    List (Nat × Option Nat) :=
  refs.filterMap (fun r => r.map (fun id => (id, value)))

/-
Slot (render delegate), embedded in src/packages/slot/src/merge-props.test.ts
lines 229-257:

  export const Slot = React.forwardRef(function Slot({ children, ...injected }, forwardedRef) {
    if (!React.isValidElement(children)) throw new Error('Slot expects a single valid React element.');
    if (__DEV__ && children.type === React.Fragment) throw new Error('Slot does not support Fragment.');
    const mergedProps = mergeProps(injected, child.props);
    const ref = mergeRefs(forwardedRef, child.ref);
    return React.cloneElement(child, { ...mergedProps, ref });
  });
-/

/-- Kind of a React element type relevant to the embedded components. -/
inductive ElType where
  | fragment
  | pressable
  | view
  | textEl
  | comp (name : String)
deriving DecidableEq

/-- A React element description: its type, its props bag, and its own ref
slot (if any). -/
structure Element where
  etype : ElType
  props : Bag
  ref : Option Nat

/-- A React node, as a component's `children` value: nothing, raw text, a
single element, or several children (an array). -/
inductive RnNode where
  | nil
  | rawText (s : String)
  | element (e : Element)
  | many (ns : List RnNode)

/-- Test for `React.isValidElement`. -/
def isElementNode : RnNode → Bool
  | .element _ => true
  | _ => false

/-- Errors raised during render delegation. -/
inductive SlotErr where
  | invalidChild
  | fragmentChild
  | js (e : JsErr)

/-- The element produced by the Slot: the child's type, the merged props, and
the fan-out ref covering the forwarded ref slot and the child's own ref. -/
structure SlotOut where
  etype : ElType
  props : Bag
  refs : List (Option Nat)

/-- Embedding of the Slot render function.  `dev` is the `__DEV__` flag.
A non-element child fails with the invalid-child error; in development a
Fragment child fails with the fragment error; otherwise the child is cloned
with `mergeProps(injected, child.props)` and the fanned-out ref. -/
def slotRender (dev : Bool) (injected : Bag) (fwd : Option Nat)
    (children : RnNode) (σ : HCache) : Except SlotErr (SlotOut × HCache) :=
  match children with
  | .element el =>
      if dev && el.etype == .fragment then .error .fragmentChild
      else
        match mergeProps injected el.props σ with
        | .ok st => .ok (⟨el.etype, st.bag, [fwd, el.ref]⟩, st.σ)
        | .error e => .error (.js e)
  | _ => .error .invalidChild

/-
Toggle primitive of src/unnamed/part_012 (pressed / onPressedChange API with
activation sources, focusableWhenDisabled, hardware-key and assistive
activation).  The component closes over its props (configuration) and its
uncontrolled React state; an event run is modelled as a state transformer
that also records the calls made to the caller-supplied callbacks
(`onPressedChange`, raw `onPress`, raw `onKeyPress`,
raw `onAccessibilityAction`).
-/

/-- Activation source tag (part_012 lines 52-61). -/
inductive Source where
  | press
  | keyboard
  | accessibilityAction
deriving DecidableEq

/-- Props of the part_012 Toggle relevant to activation: the controlled
`pressed` value (if supplied), the raw `disabled` prop, and
`focusableWhenDisabled`. -/
structure Toggle12Cfg where
  pressed : Option Bool
  disabledProp : Option Bool
  focusableWhenDisabled : Bool
deriving DecidableEq

/-- Observable state of one part_012 Toggle instance: the uncontrolled React
state plus the record of callback invocations. -/
structure Toggle12St where
  uncontrolled : Bool
  emitted : List (Bool × Source)
  pressCalls : List Nat
  keyForwarded : List String
  actionForwarded : List String
deriving DecidableEq

/-- Resolution `const isDisabled = disabled === true` (part_012 line 181). -/
def toggle12IsDisabled (cfg : Toggle12Cfg) : Bool :=
  cfg.disabledProp == some true

/-- Resolution `const isFocusable = !isDisabled || focusableWhenDisabled === true`
(part_012 line 182). -/
def toggle12IsFocusable (cfg : Toggle12Cfg) : Bool :=
  !(toggle12IsDisabled cfg) || cfg.focusableWhenDisabled

/-- Resolution of the exposed pressed state (part_012 lines 189-190): the
controlled value when supplied, else the uncontrolled state. -/
def toggle12IsPressed (cfg : Toggle12Cfg) (st : Toggle12St) : Bool :=
  cfg.pressed.getD st.uncontrolled

/-- Embedding of `dispatchChange` (part_012 lines 194-202): writes the
uncontrolled state only when no controlled value is supplied, and always
emits `(next, {source})` through `onPressedChange`. -/
def toggle12DispatchChange (cfg : Toggle12Cfg) (st : Toggle12St)
    (next : Bool) (src : Source) : Toggle12St :=
  { st with
    uncontrolled := if cfg.pressed = none then next else st.uncontrolled,
    emitted := st.emitted ++ [(next, src)] }

/-- Embedding of `activateToggle` (part_012 lines 204-215): dispatches the
negated pressed state, and for a press-sourced activation carrying a native
event additionally invokes the raw `onPress` callback. -/
def toggle12Activate (cfg : Toggle12Cfg) (st : Toggle12St) (src : Source)
    (nativeEvent : Option Nat) : Toggle12St :=
  let st1 := toggle12DispatchChange cfg st (!(toggle12IsPressed cfg st)) src
  match nativeEvent, src with
  | some ev, .press => { st1 with pressCalls := st1.pressCalls ++ [ev] }
  | _, _ => st1

/-- Embedding of `handlePress` (part_012 lines 217-222). -/
def toggle12HandlePress (cfg : Toggle12Cfg) (st : Toggle12St) (ev : Nat) :
    Toggle12St :=
  toggle12Activate cfg st .press (some ev)

/-- The activation-key test of part_012 lines 228-236 (character-identical
chain in part_006 lines 308-316). -/
def isActivationKey (k : String) : Bool :=
  k == "Enter" || k == " " || k == "Spacebar" || k == "Space" ||
  k == "Select" || k == "Return" || k == "OK" || k == "Accept"

/-- Embedding of `handleKeyPress` (part_012 lines 224-245): an activation key
activates with the keyboard source, and every key event is then forwarded to
the caller-supplied raw `onKeyPress`.  Note that the handler contains no
`isDisabled` guard. -/
def toggle12HandleKeyPress (cfg : Toggle12Cfg) (st : Toggle12St)
    (k : String) : Toggle12St :=
  let st1 := if isActivationKey k then toggle12Activate cfg st .keyboard none
             else st
  { st1 with keyForwarded := st1.keyForwarded ++ [k] }

/-- Embedding of `handleAccessibilityAction` (part_012 lines 247-262): the
action names `activate`, `click` and `magicTap` activate with the
assistive-action source, and every action event is then forwarded to the raw
`onAccessibilityAction`.  Note that the handler contains no `isDisabled`
guard. -/
def toggle12HandleAccessibilityAction (cfg : Toggle12Cfg) (st : Toggle12St)
    (name : String) : Toggle12St :=
  let st1 := if name == "activate" || name == "click" || name == "magicTap"
             then toggle12Activate cfg st .accessibilityAction none
             else st
  { st1 with actionForwarded := st1.actionForwarded ++ [name] }

/-- Press-gesture delivery to the part_012 Toggle: the underlying Pressable
receives `disabled={isDisabled}`, and React Native's Pressability does not
invoke `onPress` on a disabled Pressable (host contract, outside this
repository), so a press gesture only reaches `handlePress` when enabled. -/
def toggle12DeliverPress (cfg : Toggle12Cfg) (st : Toggle12St) (ev : Nat) :
    Toggle12St :=
  if toggle12IsDisabled cfg then st else toggle12HandlePress cfg st ev

/-- Embedding of the merged accessibility state
`{...accessibilityState, disabled: isDisabled, checked: isPressed}`
(part_012 lines 264-271; textually identical construction in
src/packages/toggle/src/toggle.tsx lines 150-157). -/
def toggle12MergedA11y (caller : Bag) (isDisabled isChecked : Bool) : Bag :=
  bagSet (bagSet caller "disabled" (.bool isDisabled)) "checked"
    (.bool isChecked)

/-
Toggle.Root of src/packages/toggle/src/toggle.tsx (checked / onCheckedChange
API; no activation sources, no assistive actions, no key-event forwarding).
-/

/-- Props of packages/toggle's Root relevant to activation. -/
structure ToggleTsxCfg where
  checked : Option Bool
  disabledProp : Option Bool
deriving DecidableEq

/-- Observable state of one packages/toggle Root instance. -/
structure ToggleTsxSt where
  uncontrolled : Bool
  emitted : List Bool
  pressCalls : List Nat
deriving DecidableEq

/-- Resolution `const isDisabled = disabled === true` (toggle.tsx line 82). -/
def tsxIsDisabled (cfg : ToggleTsxCfg) : Bool :=
  cfg.disabledProp == some true

/-- Resolution of the exposed checked state (toggle.tsx line 86). -/
def tsxIsChecked (cfg : ToggleTsxCfg) (st : ToggleTsxSt) : Bool :=
  cfg.checked.getD st.uncontrolled

/-- Embedding of `handleToggle` (toggle.tsx lines 114-127): guarded by
`isDisabled`; flips the state (uncontrolled only), emits the next value via
`onCheckedChange`, and invokes the raw `onPress` with the event. -/
def tsxHandleToggle (cfg : ToggleTsxCfg) (st : ToggleTsxSt) (ev : Nat) :
    ToggleTsxSt :=
  if tsxIsDisabled cfg then st
  else
    let next := !(tsxIsChecked cfg st)
    { uncontrolled := if cfg.checked = none then next else st.uncontrolled,
      emitted := st.emitted ++ [next],
      pressCalls := st.pressCalls ++ [ev] }

/-- Embedding of `handleKeyPress` (toggle.tsx lines 138-148): guarded by
`isDisabled`; only the keys `Enter` and a plain space activate, and the key
event is not forwarded to any caller-supplied handler. -/
def tsxHandleKeyPress (cfg : ToggleTsxCfg) (st : ToggleTsxSt) (k : String)
    (ev : Nat) : ToggleTsxSt :=
  if tsxIsDisabled cfg then st
  else if k == "Enter" || k == " " then tsxHandleToggle cfg st ev
  else st

/-
Button of src/unnamed/part_006 second section (lines 244-350): the Button
variant with accessibility actions and the full activation key set.
-/

/-- Observable state of one part_006 Button instance. -/
structure Button06St where
  pressCalls : List String
  keyForwarded : List String
deriving DecidableEq

/-- Embedding of the part_006 Button `handleKeyPress` (lines 305-325): an
activation key invokes `onPress` only when not disabled, and every key event
is then forwarded to the caller-supplied raw `onKeyPress`. -/
def button06HandleKeyPress (isDisabled : Bool) (st : Button06St)
    (k : String) : Button06St :=
  let st1 := if isActivationKey k && !isDisabled then
               { st with pressCalls := st.pressCalls ++ [k] }
             else st
  { st1 with keyForwarded := st1.keyForwarded ++ [k] }

/-- Embedding of the part_006 Button merged accessibility state
`{...accessibilityState, disabled: isDisabled}` (lines 265-271). -/
def button06MergedA11y (caller : Bag) (isDisabled : Bool) : Bag :=
  bagSet caller "disabled" (.bool isDisabled)

/-
Development-build warning of Toggle.Root / Button.Root for a non-Pressable
asChild child (src/packages/toggle/src/toggle.tsx lines 88-112, same shape in
part_006 lines 49-73): a console.warn with no effect on the render result.
-/

/-- Warnings produced by Toggle.Root's asChild development check: one warning
exactly when `__DEV__ && asChild && React.isValidElement(children)` and the
child's type is not `Pressable`. -/
def toggleRootWarnings (dev asChild : Bool) (children : RnNode) :
    List String :=
  match children with
  | .element el =>
      if dev && asChild && !(el.etype == .pressable) then
        ["base-ui-rn unsupported asChild child warning"]
      else []
  | _ => []

/-- Render of Toggle.Root's asChild branch (toggle.tsx lines 172-178): the
development warning is side-effect-only, and the returned element is the Slot
applied to the common props; the pair records both. -/
def toggleRootAsChild (dev : Bool) (commonProps : Bag) (fwd : Option Nat)
    (children : RnNode) (σ : HCache) :
    List String × Except SlotErr (SlotOut × HCache) :=
  (toggleRootWarnings dev true children, slotRender dev commonProps fwd children σ)

/-
Supporting lemmas.
-/

/-- Reading back a key just written. -/
theorem bagGet_bagSet_self (b : Bag) (k : String) (v : JSVal) :
    bagGet (bagSet b k v) k = v := by
  induction b with
  | nil => simp [bagSet, bagGet, alGet]
  | cons hd tl ih =>
      by_cases h : hd.1 = k
      · simp [bagSet, bagGet, alGet, h]
      · simpa [bagSet, bagGet, alGet, h] using ih

/-- Writing one key does not disturb reads of another. -/
theorem bagGet_bagSet_ne (b : Bag) (k k1 : String) (v : JSVal)
    (h : k1 ≠ k) : bagGet (bagSet b k v) k1 = bagGet b k1 := by
  induction b with
  | nil => simp [bagSet, bagGet, alGet, Ne.symm h]
  | cons hd tl ih =>
      obtain ⟨k2, v2⟩ := hd
      by_cases h2 : k2 = k
      · subst h2
        simp [bagSet, bagGet, alGet, Ne.symm h]
      · simp only [bagSet, if_neg h2]
        by_cases h3 : k2 = k1
        · subst h3
          simp [bagGet, alGet]
        · simp only [bagGet, alGet, if_neg h3]
          exact ih

/-- A key whose read is defined occurs in the bag with that value. -/
theorem bagGet_mem (b : Bag) (k : String) (h : bagGet b k ≠ .undef) :
    (k, bagGet b k) ∈ b := by
  induction b with
  | nil => simp [bagGet, alGet] at h
  | cons hd tl ih =>
      by_cases h2 : hd.1 = k
      · subst h2
        simp [bagGet, alGet]
      · simp only [bagGet, alGet, h2, if_false] at h ⊢
        exact List.mem_cons_of_mem _ (ih h)

/-- Reading back a numeric key just written. -/
theorem nlGet_nlSet_self {α : Type} (l : List (Nat × α)) (k : Nat) (v : α) :
    nlGet (nlSet l k v) k = some v := by
  induction l with
  | nil => simp [nlSet, nlGet]
  | cons hd tl ih =>
      by_cases h : hd.1 = k
      · simp [nlSet, nlGet, h]
      · simpa [nlSet, nlGet, h] using ih

/-- Strict equality against `undefined` characterises `undefined`. -/
theorem jsEq_undef_iff (v : JSVal) : jsEq v .undef = true ↔ v = .undef := by
  cases v <;> simp [jsEq]

/-- A function value is never strictly equal to a falsy value. -/
theorem jsEq_fn_falsy (i : Nat) (cv : JSVal) (h : jsTruthy cv = false) :
    jsEq (.fn i) cv = false := by
  cases cv <;> simp_all [jsEq, jsTruthy]

/-- Composing the same identity pair against the cache produced by a first
composition is a cache hit: it returns the first merged identity and leaves
the cache unchanged. -/
theorem composePair_idem (p c : Nat) (σ : HCache) :
    composePair p c (composePair p c σ).2 =
      ((composePair p c σ).1, (composePair p c σ).2) := by
  unfold composePair
  cases h : nlGet ((nlGet σ.table p).getD []) c with
  | some m => simp [h]
  | none => simp [h, nlGet_nlSet_self]

/-- Critical keys are distinct from the nested-accessibility keys, which are
handled by an earlier branch. -/
theorem critical_ne_acc (k : String) (hk : k ∈ CRITICAL) :
    ¬(k = "accessibilityState" ∨ k = "accessibilityValue") := by
  rintro (rfl | rfl) <;> revert hk <;> decide

/-- The result bag after one merge step is the incoming bag, possibly with a
single write at the step's own key. -/
theorem mpStep_bag (child : Bag) (st : MergeSt) (k : String) (iv : JSVal)
    (st2 : MergeSt) (h : mpStep child st k iv = .ok st2) :
    st2.bag = st.bag ∨ ∃ v, st2.bag = bagSet st.bag k v := by
  simp only [mpStep] at h
  repeat' split at h
  all_goals (try (injection h with h; subst h))
  all_goals first
    | exact Or.inl rfl
    | exact Or.inr ⟨_, rfl⟩
    | cases h

/-- One merge step never disturbs the value stored at a different key. -/
theorem mpStep_bagGet_ne (child : Bag) (st : MergeSt) (k : String)
    (iv : JSVal) (st2 : MergeSt) (h : mpStep child st k iv = .ok st2)
    (k1 : String) (hne : k1 ≠ k) : bagGet st2.bag k1 = bagGet st.bag k1 := by
  rcases mpStep_bag child st k iv st2 h with h2 | ⟨v, h2⟩
  · rw [h2]
  · rw [h2, bagGet_bagSet_ne _ _ _ _ hne]

/-- A merge run over entries that never mention key `k` leaves the value at
`k` unchanged. -/
theorem mergePropsGo_bagGet_notMem (child : Bag) (k : String) :
    ∀ (entries : List (String × JSVal)) (st out : MergeSt),
    (∀ p ∈ entries, p.1 ≠ k) →
    mergePropsGo child entries st = .ok out →
    bagGet out.bag k = bagGet st.bag k := by
  intro entries
  induction entries with
  | nil =>
      intro st out _ h
      cases h
      rfl
  | cons hd rest ih =>
      intro st out hk h
      obtain ⟨k1, iv1⟩ := hd
      simp only [mergePropsGo] at h
      cases h2 : mpStep child st k1 iv1 with
      | error e => rw [h2] at h; cases h
      | ok st3 =>
          rw [h2] at h
          have hne : k1 ≠ k := hk (k1, iv1) (List.mem_cons_self _ _)
          calc bagGet out.bag k = bagGet st3.bag k :=
                ih st3 out (fun p hp => hk p (List.mem_cons_of_mem _ hp)) h
            _ = bagGet st.bag k :=
                mpStep_bagGet_ne child st k1 iv1 st3 h2 k (Ne.symm hne)

/-- If the step for key `k` always writes the value `w` (whatever the loop
state), then a merge run over entries with pairwise-distinct keys containing
`(k, iv)` leaves `w` at key `k` in the final bag. -/
theorem mergePropsGo_write (child : Bag) (k : String) (iv w : JSVal)
    (hstep : ∀ s : MergeSt, mpStep child s k iv = .ok ⟨bagSet s.bag k w, true, s.σ⟩) :
    ∀ (entries : List (String × JSVal)) (st out : MergeSt),
    (entries.map Prod.fst).Nodup →
    (k, iv) ∈ entries →
    mergePropsGo child entries st = .ok out →
    bagGet out.bag k = w := by
  intro entries
  induction entries with
  | nil =>
      intro st out _ hmem
      cases hmem
  | cons hd rest ih =>
      intro st out hnd hmem h
      obtain ⟨k1, iv1⟩ := hd
      simp only [List.map_cons, List.nodup_cons] at hnd
      rcases List.mem_cons.mp hmem with heq | hmem2
      · cases heq
        simp only [mergePropsGo, hstep st] at h
        have hrest : ∀ p ∈ rest, p.1 ≠ k := by
          intro p hp hpk
          exact hnd.1 (hpk ▸ List.mem_map_of_mem Prod.fst hp)
        rw [mergePropsGo_bagGet_notMem child k rest _ out hrest h]
        exact bagGet_bagSet_self _ _ _
      · simp only [mergePropsGo] at h
        cases h2 : mpStep child st k1 iv1 with
        | error e => rw [h2] at h; cases h
        | ok st3 =>
            rw [h2] at h
            exact ih st3 out hnd.2 hmem2 h

/-- A critical key with a defined injected value strictly different from the
child's value is written outright by its merge step. -/
theorem mpStep_critical_write (child : Bag) (st : MergeSt) (k : String)
    (iv : JSVal) (hk : k ∈ CRITICAL) (hiv : iv ≠ .undef)
    (hne : jsEq (bagGet child k) iv = false) :
    mpStep child st k iv = .ok ⟨bagSet st.bag k iv, true, st.σ⟩ := by
  have h0 : jsEq iv .undef = false := by
    cases h2 : jsEq iv .undef
    · rfl
    · exact absurd ((jsEq_undef_iff iv).mp h2) hiv
  have h1 := critical_ne_acc k hk
  simp [mpStep, h0, h1, hk, hne]

/-- A merge step whose entry does not write (per `stepWrites`) returns the
loop state unchanged. -/
theorem mpStep_noWrite (child : Bag) (st : MergeSt) (k : String) (iv : JSVal)
    (hw : stepWrites child k iv = false) :
    mpStep child st k iv = .ok st := by
  simp only [stepWrites] at hw
  simp only [mpStep]
  repeat' split at hw
  all_goals simp_all

/-- A merge run over entries none of which writes returns the initial loop
state unchanged. -/
theorem mergePropsGo_noWrite (child : Bag) :
    ∀ (entries : List (String × JSVal)) (st : MergeSt),
    (∀ p ∈ entries, stepWrites child p.1 p.2 = false) →
    mergePropsGo child entries st = .ok st := by
  intro entries
  induction entries with
  | nil => intro st _; rfl
  | cons hd rest ih =>
      intro st hw
      obtain ⟨k1, iv1⟩ := hd
      simp only [mergePropsGo,
        mpStep_noWrite child st k1 iv1 (hw (k1, iv1) (List.mem_cons_self _ _))]
      exact ih st (fun p hp => hw p (List.mem_cons_of_mem _ hp))

/-- An event-handler key whose injected value is a function and whose child
value is falsy is written with the injected function itself: mergeHandlers
returns the primitive handler unchanged when the consumer slot is falsy, and
a function is never strictly equal to a falsy child value. -/
theorem mpStep_handler_write (child : Bag) (st : MergeSt) (k : String)
    (i : Nat) (hon : keyStartsOn k = true) (hcrit : k ∉ CRITICAL)
    (hacc : ¬(k = "accessibilityState" ∨ k = "accessibilityValue"))
    (hfalsy : jsTruthy (bagGet child k) = false) :
    mpStep child st k (.fn i) = .ok ⟨bagSet st.bag k (.fn i), true, st.σ⟩ := by
  have hmh : mergeHandlers (.fn i) (bagGet child k) st.σ = .ok (.fn i, st.σ) := by
    have ht : jsTruthy (JSVal.fn i) = true := rfl
    simp [mergeHandlers, ht, hfalsy]
  have hne := jsEq_fn_falsy i (bagGet child k) hfalsy
  have h0 : jsEq (JSVal.fn i) JSVal.undef = false := rfl
  have h1 : isFn (JSVal.fn i) = true := rfl
  simp [mpStep, hacc, hcrit, hon, h0, h1, hmh, hne]

/-- Core critical-precedence fact about a successful merge, shared by the
mergeProps-level and Slot-level statements. -/
theorem mergeProps_critical_key (injected child : Bag) (σ : HCache)
    (k : String) (out : MergeSt)
    (hnd : (injected.map Prod.fst).Nodup)
    (hk : k ∈ CRITICAL)
    (hdef : bagGet injected k ≠ .undef)
    (hne : jsEq (bagGet child k) (bagGet injected k) = false)
    (hok : mergeProps injected child σ = .ok out) :
    bagGet out.bag k = bagGet injected k := by
  have hmem : (k, bagGet injected k) ∈ injected := bagGet_mem injected k hdef
  exact mergePropsGo_write child k (bagGet injected k) (bagGet injected k)
    (fun s => mpStep_critical_write child s k (bagGet injected k) hk hdef hne)
    injected ⟨child, false, σ⟩ out hnd hmem hok

/-- Handler-key preservation: an `on…` key outside the critical and nested
sets whose injected value is a function and whose child value is falsy ends
up holding the injected function after a successful merge. -/
theorem mergeProps_handler_key (injected child : Bag) (σ : HCache)
    (k : String) (i : Nat) (out : MergeSt)
    (hnd : (injected.map Prod.fst).Nodup)
    (hon : keyStartsOn k = true) (hcrit : k ∉ CRITICAL)
    (hacc : ¬(k = "accessibilityState" ∨ k = "accessibilityValue"))
    (hdef : bagGet injected k = .fn i)
    (hfalsy : jsTruthy (bagGet child k) = false)
    (hok : mergeProps injected child σ = .ok out) :
    bagGet out.bag k = .fn i := by
  have hmem : (k, JSVal.fn i) ∈ injected := by
    have h2 := bagGet_mem injected k (by rw [hdef]; exact fun h => JSVal.noConfusion h)
    rwa [hdef] at h2
  exact mergePropsGo_write child k (.fn i) (.fn i)
    (fun s => mpStep_handler_write child s k i hon hcrit hacc hfalsy)
    injected ⟨child, false, σ⟩ out hnd hmem hok

/-
Claim theorems.
-/

/-- C1: for every injected and child bag (well-formed: pairwise-distinct
injected keys) and every key k in the CRITICAL set whose injected value is
defined and strictly different from the child value, a successful
mergeProps(injected, child) maps k to the injected value, replacing the
caller value. -/
theorem mergeProps_critical_precedence (injected child : Bag) (σ : HCache)
    (k : String) (out : MergeSt)
    (hnd : (injected.map Prod.fst).Nodup)
    (hk : k ∈ CRITICAL)
    (hdef : bagGet injected k ≠ .undef)
    (hne : jsEq (bagGet child k) (bagGet injected k) = false)
    (hok : mergeProps injected child σ = .ok out) :
    bagGet out.bag k = bagGet injected k :=
  mergeProps_critical_key injected child σ k out hnd hk hdef hne hok

/-- Witness for C1 at a concrete critical key: the injected
accessibilityRole replaces the child's conflicting accessibilityRole. -/
theorem mergeProps_critical_precedence_witness :
    bagGet (MergeSt.mk [("accessibilityRole", JSVal.str "button")] true emptyCache).bag
        "accessibilityRole" =
      bagGet [("accessibilityRole", JSVal.str "button")] "accessibilityRole" :=
  mergeProps_critical_precedence
    [("accessibilityRole", JSVal.str "button")]
    [("accessibilityRole", JSVal.str "link")]
    emptyCache "accessibilityRole"
    ⟨[("accessibilityRole", JSVal.str "button")], true, emptyCache⟩
    (by decide) (by decide) (fun h => JSVal.noConfusion h) rfl rfl

/-- C7: for all handler functions f and g both present, composing the same
(f, g) pair twice via mergeHandlers returns the same composed function
identity: the first composition stores the merged handler in the two-level
cache keyed by the two handler identities, and the second composition of the
identical pair is a cache hit returning that very function, with the cache
unchanged. -/
theorem mergeHandlers_same_pair_idempotent (f g : Nat) (σ : HCache) :
    mergeHandlers (.fn f) (.fn g) σ =
      .ok (.fn (composePair f g σ).1, (composePair f g σ).2) ∧
    mergeHandlers (.fn f) (.fn g) (composePair f g σ).2 =
      .ok (.fn (composePair f g σ).1, (composePair f g σ).2) := by
  constructor
  · simp [mergeHandlers, jsTruthy, weakKeyable, jsIdOf]
  · simp [mergeHandlers, jsTruthy, weakKeyable, jsIdOf, composePair_idem]

/-- C3 (amended): for the slot-variant composed handler (part_008/part_010),
the primitive handler f runs first on the event e; if f left the prevention
flag set, the consumer handler g is never invoked; otherwise g is invoked
exactly once, on the same event object (same identity, as mutated by f).
The part_009 variant instead invokes the consumer first and the primitive
second, unconditionally, each exactly once on the same event object. -/
theorem mergeHandlers_composed_run (p c : Ev → Bool) (e : Ev) :
    (runMergedSlot p c e).2.head? = some (HTag.prim, e) ∧
    ((runHandler p e).prevented = true →
      (runMergedSlot p c e).2 = [(HTag.prim, e)]) ∧
    ((runHandler p e).prevented = false →
      (runMergedSlot p c e).2 = [(HTag.prim, e), (HTag.cons, runHandler p e)] ∧
      (runHandler p e).eid = e.eid) ∧
    (runMergedAlt p c e).2 = [(HTag.cons, e), (HTag.prim, runHandler c e)] := by
  refine ⟨?_, ?_, ?_, rfl⟩
  · by_cases hp : p e <;> simp [runMergedSlot, runHandler, hp]
  · intro h
    simp only [runHandler] at h
    simp [runMergedSlot, runHandler, h]
  · intro h
    simp only [runHandler] at h
    simp [runMergedSlot, runHandler, h]

/-- Witness for C3's amended theorem at a concrete non-preventing primitive
handler: both handlers appear in the trace, primitive first. -/
theorem mergeHandlers_composed_run_witness :
    (runMergedSlot (fun _ => false) (fun e2 => e2.prevented) ⟨7, false⟩).2 =
      [(HTag.prim, ⟨7, false⟩), (HTag.cons, ⟨7, false⟩)] :=
  ((mergeHandlers_composed_run (fun _ => false) (fun e2 => e2.prevented)
    ⟨7, false⟩).2.2.1 rfl).1

/-- C3 counterexample: under the part_009 variant of mergeHandlers, with a
primitive handler that sets the prevention flag, the consumer handler is
invoked anyway — in fact first, before the primitive handler has run — so the
claim as stated (consumer never invoked once the primitive prevents) is false
for that cited implementation. -/
theorem mergeHandlers_alt_ignores_prevention :
    (runHandler (fun _ => true) ⟨0, false⟩).prevented = true ∧
    (runMergedAlt (fun _ => true) (fun e2 => e2.prevented) ⟨0, false⟩).2 =
      [(HTag.cons, ⟨0, false⟩), (HTag.prim, ⟨0, false⟩)] ∧
    (runMergedAlt (fun _ => true) (fun e2 => e2.prevented)
      ⟨0, false⟩).2.countP (fun t => t.1 == HTag.cons) = 1 := by
  exact ⟨rfl, rfl, rfl⟩

/-- C6 (amended): the packages/slot mergeProps preserves reference identity —
whenever no injected entry writes under its resolution rule (its value is
undefined; or the nested accessibility object is shallow-equal; or a critical
key's value is already strictly equal; or an ordinary key's child value is
defined), the function returns the child bag object itself, with no
allocation and the handler cache untouched — and mergeObjectsShallow returns
the caller's nested object unchanged when every injected key strictly equals
the corresponding caller value.  (The part_011 variant instead allocates a
fresh top-level bag unconditionally; see its counterexample.) -/
theorem mergeProps_identity_preservation (injected child : Bag) (σ : HCache)
    (hw : ∀ p ∈ injected, stepWrites child p.1 p.2 = false) :
    mergeProps injected child σ = .ok ⟨child, false, σ⟩ ∧
    (∀ (ci ii : Nat) (cf fi : List (String × JSVal)),
      (fi.all fun kv => jsEq (bagGet cf kv.1) kv.2) = true →
      mergeObjectsShallow (.obj ci cf) (.obj ii fi) = .keepChild) := by
  constructor
  · exact mergePropsGo_noWrite child injected ⟨child, false, σ⟩ hw
  · intro ci ii cf fi hall
    have hany : (fi.any fun kv => !(jsEq (bagGet cf kv.1) kv.2)) = false := by
      rw [List.any_eq_false]
      intro kv hkv
      simp [List.all_eq_true.mp hall kv hkv]
    simp [mergeObjectsShallow, isObjectLike, fieldsOf, hany]

/-- Witness for C6's amended theorem: an ordinary key already defined on the
child triggers no write and the merge returns the child bag itself; a
shallow-equal nested accessibility object is kept by reference. -/
theorem mergeProps_identity_preservation_witness :
    mergeProps [("testID", JSVal.str "x")] [("testID", JSVal.str "y")]
        emptyCache = .ok ⟨[("testID", JSVal.str "y")], false, emptyCache⟩ ∧
    mergeObjectsShallow (.obj 7 [("disabled", JSVal.bool true)])
        (.obj 5 [("disabled", JSVal.bool true)]) = .keepChild :=
  ⟨(mergeProps_identity_preservation [("testID", JSVal.str "x")]
      [("testID", JSVal.str "y")] emptyCache (by decide)).1,
   (mergeProps_identity_preservation [] [] emptyCache (by decide)).2
      7 5 [("disabled", JSVal.bool true)] [("disabled", JSVal.bool true)]
      (by decide)⟩

/-- C6 counterexample: the part_011 variant of mergeProps starts from
`const result = {...child}`, an unconditional fresh allocation; with an empty
injected bag — where no injected key can change the outcome — the result has
the child's content but is a new allocation (`cloned = true`), not the child
bag object itself, so the reference-identity claim is false for that cited
implementation. -/
theorem mergeProps011_always_allocates :
    mergeProps011 [] [("testID", JSVal.str "x")] emptyCache =
      .ok ⟨[("testID", JSVal.str "x")], true, emptyCache⟩ := rfl

/-- C5 (amended): the Slot fails with the invalid-child error whenever its
child is not exactly one valid element (zero children, several children, or
a non-element value); with exactly one valid element that is not a Fragment
(development builds reject Fragment children with a distinct error) it
returns a new element of the child's type whose props are the successful
mergeProps(injected, child.props) — which therefore satisfies the
critical-key precedence invariant — and whose ref is the fan-out of the
Slot's own forwarded ref slot and the child's ref, each non-null slot
observing every value passed through the merged ref callback. -/
theorem slot_single_element_contract :
    (∀ (dev : Bool) (inj : Bag) (fwd : Option Nat) (σ : HCache) (n : RnNode),
      isElementNode n = false →
      slotRender dev inj fwd n σ = .error .invalidChild) ∧
    (∀ (dev : Bool) (inj : Bag) (fwd : Option Nat) (σ : HCache)
        (el : Element) (st : MergeSt),
      (dev = true → el.etype ≠ .fragment) →
      mergeProps inj el.props σ = .ok st →
      slotRender dev inj fwd (.element el) σ =
        .ok (⟨el.etype, st.bag, [fwd, el.ref]⟩, st.σ) ∧
      (∀ k, (inj.map Prod.fst).Nodup → k ∈ CRITICAL →
        bagGet inj k ≠ .undef →
        jsEq (bagGet el.props k) (bagGet inj k) = false →
        bagGet st.bag k = bagGet inj k)) ∧
    (∀ (a b : Nat) (v : Option Nat),
      mergeRefsRun [some a, some b] v = [(a, v), (b, v)]) := by
  refine ⟨?_, ?_, fun a b v => rfl⟩
  · intro dev inj fwd σ n hn
    cases n <;> first | rfl | simp [isElementNode] at hn
  · intro dev inj fwd σ el st hfr hok
    have hcond : (dev && el.etype == ElType.fragment) = false := by
      cases dev
      · rfl
      · simp [hfr rfl]
    constructor
    · simp [slotRender, hcond, hok]
    · intro k hnd hk hdef hne
      exact mergeProps_critical_key inj el.props σ k st hnd hk hdef hne hok

/-- Witness for C5's amended theorem: a single valid non-Fragment element is
cloned with the merged props (the injected critical accessibilityRole
replacing the child's) and the fanned-out ref slots. -/
theorem slot_single_element_contract_witness :
    slotRender true [("accessibilityRole", JSVal.str "button")] (some 9)
        (RnNode.element ⟨ElType.view, [("accessibilityRole", JSVal.str "link")], some 5⟩)
        emptyCache =
      .ok (⟨ElType.view, [("accessibilityRole", JSVal.str "button")],
            [some 9, some 5]⟩, emptyCache) :=
  (slot_single_element_contract.2.1 true
    [("accessibilityRole", JSVal.str "button")] (some 9) emptyCache
    ⟨ElType.view, [("accessibilityRole", JSVal.str "link")], some 5⟩
    ⟨[("accessibilityRole", JSVal.str "button")], true, emptyCache⟩
    (fun _ h => ElType.noConfusion h) rfl).1

/-- C5 counterexample: a Fragment is a valid element (exactly one child and
`React.isValidElement` holds), yet in development builds the Slot does not
return a merged element for it — it throws the fragment error — so the claim
as stated (every single valid element yields the merged clone) is false at
this input. -/
theorem slot_fragment_child_throws :
    isElementNode (RnNode.element ⟨ElType.fragment, [], none⟩) = true ∧
    slotRender true [] none (RnNode.element ⟨ElType.fragment, [], none⟩)
      emptyCache = .error .fragmentChild :=
  ⟨rfl, rfl⟩

/-- C9 (amended): the development-build unsupported-child diagnostic of
Toggle.Root's asChild path is non-fatal for ordinary non-Pressable elements:
exactly one console warning is recorded and render delegation still returns
the merged element, with the injected responder wiring (an `on…` responder
key whose caller slot is falsy) surviving into the merged props so
interaction proceeds; a Fragment child, however, also warns but then aborts
composition with a thrown error in development builds. -/
theorem toggle_unsupported_child_diagnostic :
    (∀ (commonProps : Bag) (fwd : Option Nat) (σ : HCache) (el : Element)
        (st : MergeSt),
      el.etype ≠ .pressable → el.etype ≠ .fragment →
      mergeProps commonProps el.props σ = .ok st →
      toggleRootAsChild true commonProps fwd (.element el) σ =
        (["base-ui-rn unsupported asChild child warning"],
         .ok (⟨el.etype, st.bag, [fwd, el.ref]⟩, st.σ)) ∧
      (∀ (k : String) (i : Nat), (commonProps.map Prod.fst).Nodup →
        keyStartsOn k = true → k ∉ CRITICAL →
        ¬(k = "accessibilityState" ∨ k = "accessibilityValue") →
        bagGet commonProps k = .fn i →
        jsTruthy (bagGet el.props k) = false →
        bagGet st.bag k = .fn i)) ∧
    (∀ (commonProps : Bag) (fwd : Option Nat) (σ : HCache) (props2 : Bag)
        (r : Option Nat),
      toggleRootAsChild true commonProps fwd
          (.element ⟨.fragment, props2, r⟩) σ =
        (["base-ui-rn unsupported asChild child warning"],
         .error .fragmentChild)) := by
  constructor
  · intro commonProps fwd σ el st hpr hfr hok
    constructor
    · have hcond : (true && el.etype == ElType.fragment) = false := by
        simp [hfr]
      have hcond2 : (true && true && !(el.etype == ElType.pressable)) = true := by
        simp [hpr]
      simp [toggleRootAsChild, toggleRootWarnings, slotRender, hcond, hcond2,
        hok, hpr]
    · intro k i hnd hon hcrit hacc hdef hfalsy
      exact mergeProps_handler_key commonProps el.props σ k i st hnd hon
        hcrit hacc hdef hfalsy hok
  · intro commonProps fwd σ props2 r
    simp [toggleRootAsChild, toggleRootWarnings, slotRender]

/-- Witness for C9's amended theorem: a generic View child under asChild
warns once but still renders, with the injected responder handler present in
the merged props. -/
theorem toggle_unsupported_child_diagnostic_witness :
    toggleRootAsChild true [("onStartShouldSetResponder", JSVal.fn 3)] none
        (RnNode.element ⟨ElType.view, [], none⟩) emptyCache =
      (["base-ui-rn unsupported asChild child warning"],
       .ok (⟨ElType.view, [("onStartShouldSetResponder", JSVal.fn 3)],
             [none, none]⟩, emptyCache)) ∧
    bagGet [("onStartShouldSetResponder", JSVal.fn 3)]
      "onStartShouldSetResponder" = JSVal.fn 3 := by
  have h := toggle_unsupported_child_diagnostic.1
    [("onStartShouldSetResponder", JSVal.fn 3)] none emptyCache
    ⟨ElType.view, [], none⟩
    ⟨[("onStartShouldSetResponder", JSVal.fn 3)], true, emptyCache⟩
    (fun h2 => ElType.noConfusion h2) (fun h2 => ElType.noConfusion h2) rfl
  refine ⟨h.1, ?_⟩
  exact h.2 "onStartShouldSetResponder" 3 (by decide) rfl (by decide)
    (by decide) rfl rfl

/-- C9 counterexample: for a Fragment child — a transparent grouping
construct — composition is not warning-plus-fallback: the development build
aborts with a thrown error, so the claim that the unsupported-child condition
is surfaced as a logged warning only, with interaction still proceeding, is
false at this input. -/
theorem toggle_fragment_child_fatal :
    toggleRootAsChild true [] none
        (RnNode.element ⟨ElType.fragment, [], none⟩) emptyCache =
      (["base-ui-rn unsupported asChild child warning"],
       .error .fragmentChild) := rfl

/-- C2: evaluation of the part_012 Toggle handlers at the failing input.
For a disabled, non-focusable toggle (disabled = true, focusableWhenDisabled
= false, uncontrolled with defaultPressed = false), a delivered Enter key
press flips the uncontrolled state to true and emits a keyboard-sourced
change notification, and a delivered assistive activate action emits an
assistive-sourced one: handleKeyPress and handleAccessibilityAction contain
no disabled guard, so activation from these sources is not a no-op,
contradicting the claim, the component's own focusableWhenDisabled
documentation ("all activation is blocked") and its own disabled-key test.
Only the press source is blocked (by the host Pressable's disabled prop), and
the packages/toggle Root — whose handlers do guard on isDisabled — is a
complete no-op at the same input. -/
theorem toggle12_disabled_activation_not_blocked :
    toggle12IsDisabled ⟨none, some true, false⟩ = true ∧
    toggle12IsFocusable ⟨none, some true, false⟩ = false ∧
    toggle12HandleKeyPress ⟨none, some true, false⟩ ⟨false, [], [], [], []⟩
        "Enter" = ⟨true, [(true, .keyboard)], [], ["Enter"], []⟩ ∧
    toggle12HandleAccessibilityAction ⟨none, some true, false⟩
        ⟨false, [], [], [], []⟩ "activate" =
      ⟨true, [(true, .accessibilityAction)], [], [], ["activate"]⟩ ∧
    toggle12DeliverPress ⟨none, some true, false⟩ ⟨false, [], [], [], []⟩ 0 =
      ⟨false, [], [], [], []⟩ ∧
    tsxHandleKeyPress ⟨none, some true⟩ ⟨false, [], []⟩ "Enter" 0 =
      ⟨false, [], []⟩ :=
  ⟨rfl, rfl, rfl, rfl, rfl, rfl⟩

/-- C4: in uncontrolled mode (no controlled pressed value) each activation
flips the exposed pressed state and emits the new value together with its
source tag; in controlled mode the activation emits the negated
caller-supplied value with its source tag, while the exposed state remains
the caller-supplied value and the internal uncontrolled state is never
written. -/
theorem toggle12_controlled_uncontrolled (cfg : Toggle12Cfg)
    (st : Toggle12St) (src : Source) (ev : Option Nat) :
    (cfg.pressed = none →
      toggle12IsPressed cfg (toggle12Activate cfg st src ev) =
        !(toggle12IsPressed cfg st) ∧
      (toggle12Activate cfg st src ev).emitted =
        st.emitted ++ [((!(toggle12IsPressed cfg st)), src)]) ∧
    (∀ v, cfg.pressed = some v →
      (toggle12Activate cfg st src ev).emitted = st.emitted ++ [(!v, src)] ∧
      toggle12IsPressed cfg (toggle12Activate cfg st src ev) = v ∧
      (toggle12Activate cfg st src ev).uncontrolled = st.uncontrolled) := by
  constructor
  · intro h
    cases ev <;> cases src <;>
      simp [toggle12Activate, toggle12DispatchChange, toggle12IsPressed, h]
  · intro v h
    cases ev <;> cases src <;>
      simp [toggle12Activate, toggle12DispatchChange, toggle12IsPressed, h]

/-- Witness for C4 at the specified scenario: uncontrolled from
defaultPressed = false, a press-sourced activation exposes true and emits
(true, press); controlled at pressed = false, the same activation emits
(true, press) while the exposed state stays false. -/
theorem toggle12_controlled_uncontrolled_witness :
    toggle12IsPressed ⟨none, none, false⟩
        (toggle12Activate ⟨none, none, false⟩ ⟨false, [], [], [], []⟩
          .press (some 1)) = true ∧
    (toggle12Activate ⟨none, none, false⟩ ⟨false, [], [], [], []⟩
        .press (some 1)).emitted = [(true, .press)] ∧
    (toggle12Activate ⟨some false, none, false⟩ ⟨false, [], [], [], []⟩
        .press (some 1)).emitted = [(true, .press)] ∧
    toggle12IsPressed ⟨some false, none, false⟩
        (toggle12Activate ⟨some false, none, false⟩ ⟨false, [], [], [], []⟩
          .press (some 1)) = false := by
  have h1 := (toggle12_controlled_uncontrolled ⟨none, none, false⟩
    ⟨false, [], [], [], []⟩ .press (some 1)).1 rfl
  have h2 := (toggle12_controlled_uncontrolled ⟨some false, none, false⟩
    ⟨false, [], [], [], []⟩ .press (some 1)).2 false rfl
  exact ⟨by simpa using h1.1, by simpa using h1.2, by simpa using h2.1,
    by simpa using h2.2.1⟩

/-- C8 (amended): for the part_012 Toggle key handler, a hardware key
triggers activation iff it lies in the literal set {Enter, " ", Spacebar,
Space, Select, Return, OK, Accept}, and every key event — activating or not —
is forwarded to the caller-supplied raw onKeyPress; the part_006 Button
handler activates on exactly the same key set when not disabled and likewise
always forwards; the packages/toggle Root, in contrast, activates only on
Enter and " " (when enabled) and forwards nothing to a raw handler. -/
theorem activation_key_set (k : String) :
    (isActivationKey k = true ↔
      (k = "Enter" ∨ k = " " ∨ k = "Spacebar" ∨ k = "Space" ∨ k = "Select" ∨
       k = "Return" ∨ k = "OK" ∨ k = "Accept")) ∧
    (∀ (cfg : Toggle12Cfg) (st : Toggle12St),
      (toggle12HandleKeyPress cfg st k).keyForwarded =
        st.keyForwarded ++ [k] ∧
      (toggle12HandleKeyPress cfg st k).emitted =
        st.emitted ++ (if isActivationKey k then
          [((!(toggle12IsPressed cfg st)), Source.keyboard)] else [])) ∧
    (∀ (d : Bool) (bst : Button06St),
      (button06HandleKeyPress d bst k).keyForwarded =
        bst.keyForwarded ++ [k] ∧
      (button06HandleKeyPress d bst k).pressCalls =
        bst.pressCalls ++ (if isActivationKey k && !d then [k] else [])) ∧
    (∀ (tc : ToggleTsxCfg) (tst : ToggleTsxSt) (ev : Nat),
      tsxIsDisabled tc = false →
      (tsxHandleKeyPress tc tst k ev).emitted =
        tst.emitted ++ (if k == "Enter" || k == " " then
          [!(tsxIsChecked tc tst)] else [])) := by
  refine ⟨?_, ?_, ?_, ?_⟩
  · simp only [isActivationKey, Bool.or_eq_true, beq_iff_eq]
    tauto
  · intro cfg st
    by_cases hak : isActivationKey k = true <;>
      simp [toggle12HandleKeyPress, toggle12Activate, toggle12DispatchChange,
        hak]
  · intro d bst
    by_cases hc : (isActivationKey k && !d) = true <;>
      simp [button06HandleKeyPress, hc]
  · intro tc tst ev hdis
    by_cases hc : (k == "Enter" || k == " ") = true <;>
      simp [tsxHandleKeyPress, tsxHandleToggle, hdis, hc]

/-- Witness for C8's amended theorem at the key "Space": the part_012 Toggle
activates and forwards the key, while the packages/toggle Root emits
nothing. -/
theorem activation_key_set_witness :
    isActivationKey "Space" = true ∧
    (toggle12HandleKeyPress ⟨none, none, false⟩ ⟨false, [], [], [], []⟩
        "Space").emitted = [(true, Source.keyboard)] ∧
    (toggle12HandleKeyPress ⟨none, none, false⟩ ⟨false, [], [], [], []⟩
        "Space").keyForwarded = ["Space"] ∧
    (tsxHandleKeyPress ⟨none, none⟩ ⟨false, [], []⟩ "Space" 0).emitted =
      [] := by
  refine ⟨rfl, ?_, ?_, ?_⟩
  · have h := ((activation_key_set "Space").2.1 ⟨none, none, false⟩
      ⟨false, [], [], [], []⟩).2
    simpa using h
  · have h := ((activation_key_set "Space").2.1 ⟨none, none, false⟩
      ⟨false, [], [], [], []⟩).1
    simpa using h
  · have h := (activation_key_set "Space").2.2.2 ⟨none, none⟩
      ⟨false, [], []⟩ 0 rfl
    simpa using h

/-- C8 counterexample: "Select" is in the claimed fixed activation key set,
yet the key handler of the packages/toggle Root — one of the claim's cited
sources — neither changes state nor emits any notification on it for an
enabled toggle (that component's activation set is only Enter and " ", and it
forwards nothing), so the claimed iff fails at this input. -/
theorem tsx_select_key_not_activating :
    isActivationKey "Select" = true ∧
    tsxHandleKeyPress ⟨none, none⟩ ⟨false, [], []⟩ "Select" 0 =
      ⟨false, [], []⟩ :=
  ⟨rfl, rfl⟩

/-- C10: the accessibility state handed to the host view has its disabled
field equal to (disabled prop === true) and, for the Toggle, its checked
field equal to the currently resolved pressed state — even when the caller's
accessibilityState supplies those same keys — while every other caller key is
preserved in the merged object; the part_006 Button merges the disabled field
only, likewise preserving the other caller keys. -/
theorem merged_accessibility_state (caller : Bag) (cfg : Toggle12Cfg)
    (st : Toggle12St) (k : String) :
    bagGet (toggle12MergedA11y caller (toggle12IsDisabled cfg)
        (toggle12IsPressed cfg st)) "disabled" =
      .bool (cfg.disabledProp == some true) ∧
    bagGet (toggle12MergedA11y caller (toggle12IsDisabled cfg)
        (toggle12IsPressed cfg st)) "checked" =
      .bool (toggle12IsPressed cfg st) ∧
    (k ≠ "disabled" → k ≠ "checked" →
      bagGet (toggle12MergedA11y caller (toggle12IsDisabled cfg)
        (toggle12IsPressed cfg st)) k = bagGet caller k) ∧
    (∀ d : Option Bool,
      bagGet (button06MergedA11y caller (d == some true)) "disabled" =
        .bool (d == some true) ∧
      (k ≠ "disabled" →
        bagGet (button06MergedA11y caller (d == some true)) k =
          bagGet caller k)) := by
  refine ⟨?_, ?_, ?_, ?_⟩
  · rw [toggle12MergedA11y, bagGet_bagSet_ne _ _ _ _ (by decide),
      bagGet_bagSet_self]
    rfl
  · rw [toggle12MergedA11y, bagGet_bagSet_self]
  · intro h1 h2
    rw [toggle12MergedA11y, bagGet_bagSet_ne _ _ _ _ h2,
      bagGet_bagSet_ne _ _ _ _ h1]
  · intro d
    refine ⟨?_, ?_⟩
    · rw [button06MergedA11y, bagGet_bagSet_self]
    · intro h1
      rw [button06MergedA11y, bagGet_bagSet_ne _ _ _ _ h1]

/-- Witness for C10 at a caller-supplied accessibilityState that already
holds checked and an extra busy key, on a disabled pressed toggle: disabled
and checked are forced by the primitive and busy is preserved. -/
theorem merged_accessibility_state_witness :
    bagGet (toggle12MergedA11y
        [("busy", JSVal.bool true), ("checked", JSVal.bool false)]
        (toggle12IsDisabled ⟨some true, some true, false⟩)
        (toggle12IsPressed ⟨some true, some true, false⟩
          ⟨false, [], [], [], []⟩)) "disabled" = JSVal.bool true ∧
    bagGet (toggle12MergedA11y
        [("busy", JSVal.bool true), ("checked", JSVal.bool false)]
        (toggle12IsDisabled ⟨some true, some true, false⟩)
        (toggle12IsPressed ⟨some true, some true, false⟩
          ⟨false, [], [], [], []⟩)) "checked" = JSVal.bool true ∧
    bagGet (toggle12MergedA11y
        [("busy", JSVal.bool true), ("checked", JSVal.bool false)]
        (toggle12IsDisabled ⟨some true, some true, false⟩)
        (toggle12IsPressed ⟨some true, some true, false⟩
          ⟨false, [], [], [], []⟩)) "busy" =
      bagGet [("busy", JSVal.bool true), ("checked", JSVal.bool false)]
        "busy" := by
  have h := merged_accessibility_state
    [("busy", JSVal.bool true), ("checked", JSVal.bool false)]
    ⟨some true, some true, false⟩ ⟨false, [], [], [], []⟩ "busy"
  exact ⟨by simpa using h.1, by simpa using h.2.1,
    h.2.2.1 (by decide) (by decide)⟩

end BaseUiRn
